import Mathlib

/-!
# Verification of the retrieval-gated answer engine and dialogue flows

Shallow embedding of `rag_backend.py` and the three dialogue flow modules
(`flows/remittance_flow.py`, `flows/financial_flow.py`, `flows/scam_flow.py`).

External collaborators (the LlamaCloud index, the SEA-LION completion
service, and `langdetect`) are opaque network services; each call a turn
makes to them is modelled by an oracle value recorded in a `ChatEnv`
environment: the outcome of the one retrieval call, of the one strict
grounded completion call, and of the one general fallback completion call
that `answer_query` can perform, plus the outcome of language detection.
Python exceptions raised by the completion client are modelled with
`Except`; exceptions swallowed by the code (retrieval, langdetect) are
modelled by the oracle carrying the failure outcome.

Python strings are modelled by Lean `String`; `str.lower`, `str.strip`,
`str.title` and the `in` substring test are re-implemented character-wise
below (ASCII case mapping, as Lean's `Char.toLower`).
-/

namespace Cor2221

/-! ## Python string primitives -/

/-- Python `str.lower()` (character-wise ASCII case mapping). -/
def plower (s : String) : String := ⟨s.data.map Char.toLower⟩

/-- Whitespace characters stripped by Python `str.strip()`. -/
def pyWS (c : Char) : Bool :=
  c = ' ' || c = '\t' || c = '\n' || c = '\r' || c = '\x0b' || c = '\x0c'

/-- Python `str.strip()`: drop leading and trailing whitespace. -/
def pstrip (s : String) : String :=
  ⟨((s.data.dropWhile pyWS).reverse.dropWhile pyWS).reverse⟩

/-- Python `needle in hay` substring test. -/
def pin (needle hay : String) : Bool := decide (needle.data <:+: hay.data)

/-- `Char.toLower` is idempotent: lowering an upper-case latin letter lands
outside the upper-case range, and everything else is fixed. -/
theorem char_toLower_toLower (c : Char) : c.toLower.toLower = c.toLower := by
  by_cases h : c.toNat ≥ 65 ∧ c.toNat ≤ 90
  · have h1 : c.toLower = Char.ofNat (c.toNat + 32) := by
      simp only [Char.toLower]
      rw [if_pos h]
    obtain ⟨h65, h90⟩ := h
    rw [h1]
    generalize c.toNat = n at h65 h90
    interval_cases n <;> decide
  · have h1 : c.toLower = c := by
      simp only [Char.toLower]
      rw [if_neg h]
    rw [h1, h1]

/-- `plower` is idempotent. -/
theorem plower_plower (s : String) : plower (plower s) = plower s := by
  simp only [plower, List.map_map]
  congr 1
  induction s.data with
  | nil => rfl
  | cons c l ih => simp [Function.comp, char_toLower_toLower, ih]

deriving instance DecidableEq for Except

/-! ## `rag_backend.py`: constants and leaf functions -/

/-- `NOT_FOUND_TOKEN` (rag_backend.py line 35). -/
def NOT_FOUND_TOKEN : String := "<<NOT_FOUND>>"

/-- `FORCE_EN_QUERY` (rag_backend.py line 36). -/
def FORCE_EN_QUERY : Bool := false

/-- `TOP_K` default (rag_backend.py line 18, env default "4"). -/
def TOP_K : Nat := 4

/-- `detect_lang` (rag_backend.py lines 41-46). The outcome of the
`langdetect.detect` call is an oracle: `none` models the call raising any
exception, `some code` models it returning `code`. -/
def detect_lang (detectRes : Option String) : String :=
  match detectRes with
  | none => "en"
  | some code => if "zh".isPrefixOf code then "zh" else code

/-- Retriever node metadata, as read by `retrieve_context`
(rag_backend.py lines 96-101): `file_name`, `source`, `document_id`. -/
structure NodeMeta where
  file_name : Option String
  source : Option String
  document_id : Option String
deriving DecidableEq

/-- A retriever node as read by `retrieve_context` (rag_backend.py lines
91-103): its text (`None`-able) and its optional metadata dict.  The code's
duck-typed fallback through `n.node` reads the same two fields, so both
node shapes collapse to this record. -/
structure RNode where
  text : Option String
  metadata : Option NodeMeta
deriving DecidableEq

/-- Python `a or b` for an optional string against a string default:
`None` and `""` are falsy. -/
def pyOrS (a : Option String) (b : String) : String :=
  match a with
  | some s => if s = "" then b else s
  | none => b

/-- Source attribution for one node:
`md.get("file_name") or md.get("source") or md.get("document_id") or "unknown"`,
with `src = "unknown"` when the metadata is absent (rag_backend.py lines
96-101). -/
def node_src (md : Option NodeMeta) : String :=
  match md with
  | some m => pyOrS m.file_name (pyOrS m.source (pyOrS m.document_id "unknown"))
  | none => "unknown"

/-- The node-processing loop of `retrieve_context` (rag_backend.py lines
90-103): keep stripped non-empty texts, in order, with their sources. -/
def collect_nodes : List RNode → List String × List String
  | [] => ([], [])
  | n :: rest =>
    let text := n.text.getD ""
    let (ctx, srcs) := collect_nodes rest
    if pstrip text ≠ "" then (pstrip text :: ctx, node_src n.metadata :: srcs)
    else (ctx, srcs)

/-- `retrieve_context` (rag_backend.py lines 83-104).  The underlying
`retrieve` call on the index is an oracle `Except`: an `Except.error`
models it raising, which the code catches, returning `([], [])`. -/
def retrieve_context (nodesRes : Except String (List RNode)) (top_k : Nat) :
    List String × List String :=
  match nodesRes with
  | .error _ => ([], [])
  | .ok nodes => collect_nodes (nodes.take top_k)

/-- The accumulation loop of `clamp_context` (rag_backend.py lines
107-115), threading the running total of kept characters. -/
def clamp_go (max_chars : Nat) : List String → Nat → List String
  | [], _ => []
  | c :: rest, total =>
    let c := pstrip c
    if c = "" then clamp_go max_chars rest total
    else if total + c.length > max_chars then
      let rem := max_chars - total
      if rem > 0 then [c.take rem ++ " ...[truncated]..."] else []
    else c :: clamp_go max_chars rest (total + c.length)

/-- `clamp_context` (rag_backend.py lines 106-116). -/
def clamp_context (chunks : List String) (max_chars : Nat := 48000) : String :=
  String.intercalate "\n\n---\n\n" (clamp_go max_chars chunks 0)

/-- `filter_context` (rag_backend.py lines 118-125): keep chunks whose
lowercased text contains any of the lowercased keywords; `sel or chunks`
returns the original list when nothing matches (or keywords are empty). -/
def filter_context (chunks : List String) (include_any : List String) : List String :=
  if include_any = [] then chunks
  else
    let keys := include_any.map plower
    let sel := chunks.filter (fun c => keys.any (fun k => pin k (plower c)))
    if sel = [] then chunks else sel

/-- The `any_hit` re-check of `answer_query` step 2 (rag_backend.py lines
224-227): does any required keyword, lowercased, occur in any chunk,
lowercased? -/
def any_hit (require_keywords : List String) (ctx_chunks : List String) : Bool :=
  ctx_chunks.any (fun c => require_keywords.any (fun k => pin (plower k) (plower c)))

/-- The required-keyword gate of `answer_query` step 2 (rag_backend.py
lines 217-231).  The code calls
`filter_context(ctx_chunks, tuple(k.lower() for k in require_keywords))`
and detects its "no match" case by object identity (`filtered is
ctx_chunks`), which — the keyword tuple being non-empty — holds exactly
when the filtered selection `sel` is empty; in that case the chunks are
emptied only if `any_hit` confirms no keyword occurs anywhere. -/
def gateKeywords (require_keywords : List String) (ctx_chunks : List String) :
    List String :=
  let keys := (require_keywords.map plower).map plower
  let sel := ctx_chunks.filter (fun c => keys.any (fun k => pin k (plower c)))
  if sel = [] then
    if any_hit require_keywords ctx_chunks then ctx_chunks else []
  else sel

/-- The EP/S-Pass focusing of `answer_query` step 3 (rag_backend.py lines
234-241), applied only when no explicit keywords were passed and
`force_general` is off.  The code passes `tuple(set(focus_terms))` to
`filter_context`; deduplication and ordering of the keyword set do not
change which chunks contain at least one of the keywords, so the terms are
passed as accumulated. -/
def focusEP (user_raw : String) (ctx_chunks : List String) : List String :=
  let ur_low := plower user_raw
  let t1 : List String :=
    if pin "s pass" ur_low || pin "spass" ur_low || pin " s-pass" ur_low then
      ["s pass", "employment pass", "ep"]
    else []
  let t2 : List String :=
    if pin "employment pass" ur_low || pin " ep " (" " ++ ur_low ++ " ") then
      ["employment pass", "ep", "s pass"]
    else []
  let focus_terms := t1 ++ t2
  if focus_terms ≠ [] then filter_context ctx_chunks focus_terms else ctx_chunks

/-- The refusal phrasings of `answer_query` (rag_backend.py lines 256-261). -/
def refusal_patterns : List String :=
  ["does not contain", "not contain information",
   "outside the scope", "not present in the context",
   "context focuses on", "cannot find", "insufficient",
   "<<>>", "<>"]

/-- The fallback notice of `answer_query` (rag_backend.py lines 274-278). -/
def FALLBACK_NOTICE : String :=
  "\n⚠️ *Fallback Notice:*\nThe uploaded context did not contain enough information to fully answer your question.\nHere’s a **general overview** based on public knowledge instead:\n\n"

/-- `answer_query`'s returned dict (rag_backend.py lines 192-199). -/
structure AnswerResult where
  answer : String
  used_rag : Bool
  sources : List String
  fallback_used : Bool
deriving DecidableEq

/-- Oracle environment for one `answer_query` call: the outcome of the
underlying index `retrieve` call, of the strict grounded `_sealion_chat`
call, of the general fallback `_sealion_chat` call, of `langdetect.detect`
on the query, and of the (dead, `FORCE_EN_QUERY = false`) translation
call.  For the completion calls, `Except.error` models a transport error
(`requests` raising / `raise_for_status`); `Except.ok raw` models a
successful response whose extracted message content is `raw` (before the
final `.strip()` that `_sealion_chat` applies). -/
structure ChatEnv where
  detectRes : Option String
  nodesRes : Except String (List RNode)
  ragChat : Except String String
  generalChat : Except String String
  translateRes : Except String String
deriving DecidableEq

/-- What `_sealion_chat` returns on success: the content, stripped
(rag_backend.py line 61). -/
def sealion_out (raw : String) : String := pstrip raw

/-- The chunk list gathered at retrieval time by `answer_query` step 1
(rag_backend.py line 210). -/
def retrievedChunks (env : ChatEnv) : List String :=
  (retrieve_context env.nodesRes TOP_K).1

/-- The source list gathered at retrieval time by `answer_query` step 1
(rag_backend.py line 210). -/
def retrievedSrcs (env : ChatEnv) : List String :=
  (retrieve_context env.nodesRes TOP_K).2

/-- Steps 2-3 of `answer_query` (rag_backend.py lines 212-241): the
post-gating chunk list that decides whether a grounded attempt is made. -/
def gatedChunks (env : ChatEnv) (user_raw : String)
    (require_keywords : List String) (force_general : Bool) : List String :=
  let ctx_chunks := retrievedChunks env
  if force_general then []
  else if require_keywords ≠ [] then gateKeywords require_keywords ctx_chunks
  else focusEP user_raw ctx_chunks

/-- Step 5 of `answer_query`, the general-knowledge fallback
(rag_backend.py lines 268-284): `hadCtx` is the truthiness of the
post-gating `ctx_chunks` at that point, which decides the visible notice. -/
def fallback_result (env : ChatEnv) (srcs : List String) (hadCtx : Bool) :
    Except String AnswerResult :=
  match env.generalChat with
  | .error e => .error e
  | .ok graw =>
    let general_reply := sealion_out graw
    let fallback_notice := if hadCtx then FALLBACK_NOTICE else ""
    .ok ⟨fallback_notice ++ general_reply, false, srcs, true⟩

/-- `answer_query` (rag_backend.py lines 187-284).  The translation branch
(lines 203-207) is dead code under `FORCE_EN_QUERY = false` but is kept;
the built prompt strings feed only the oracled completion calls and are
not modelled.  A transport error in either completion call propagates as
`Except.error` (the flows do not catch it). -/
def answer_query (env : ChatEnv) (user_raw : String)
    (require_keywords : List String := []) (force_general : Bool := false) :
    Except String AnswerResult :=
  let user_lang := detect_lang env.detectRes
  let _query_for_retrieval :=
    if FORCE_EN_QUERY && user_lang ≠ "en" then
      match env.translateRes with
      | .ok t => t
      | .error _ => user_raw
    else user_raw
  let srcs := retrievedSrcs env
  let ctx_chunks := gatedChunks env user_raw require_keywords force_general
  let _context := clamp_context ctx_chunks 48000
  if ctx_chunks ≠ [] then
    match env.ragChat with
    | .error e => .error e
    | .ok raw =>
      let rag_ans := sealion_out raw
      if rag_ans ≠ "" then
        let text := pstrip rag_ans
        let looks_like_refusal := refusal_patterns.any (fun pat => pin pat (plower text))
        if text ≠ NOT_FOUND_TOKEN ∧ ¬ looks_like_refusal = true then
          .ok ⟨text, true, srcs, false⟩
        else fallback_result env srcs !ctx_chunks.isEmpty
      else fallback_result env srcs !ctx_chunks.isEmpty
  else fallback_result env srcs !ctx_chunks.isEmpty

/-! ## Shared flow helpers: Python `str.title`, `re.findall` scanners, dedup -/

/-- Python `str.title()` over ASCII letters: a letter starts upper-cased when
the previous character is not a letter, lower-cased otherwise. -/
def titleGo : Bool → List Char → List Char
  | _, [] => []
  | prevAlpha, c :: rest =>
    let c' := if c.isAlpha then (if prevAlpha then c.toLower else c.toUpper) else c
    c' :: titleGo c.isAlpha rest

/-- Python `str.title()`. -/
def pytitle (s : String) : String := ⟨titleGo false s.data⟩

/-- `user.replace(",", "")` as used before number extraction. -/
def stripCommas (s : String) : String := ⟨s.data.filter (· ≠ ',')⟩

/-- Scanner state for `re.findall(r"\d+(?:\.\d+)?", ...)`: outside a match,
inside the integer digits, just after a dot whose continuation is unknown,
or inside the fractional digits.  The accumulators are reversed. -/
inductive NumSt where
  | outside
  | intPart (acc : List Char)
  | pendingDot (acc : List Char)
  | fracPart (acc : List Char)

/-- One-pass scanner equivalent to `re.findall(r"\d+(?:\.\d+)?", s)`:
maximal digit runs, optionally extended by a dot followed by at least one
digit; a dot not followed by a digit ends the match at the integer part
(the dot itself cannot start a new match, so consuming it is harmless). -/
def numsAux : NumSt → List Char → List String
  | st, [] =>
    (match st with
     | .outside => []
     | .intPart acc => [String.mk acc.reverse]
     | .pendingDot acc => [String.mk acc.reverse]
     | .fracPart acc => [String.mk acc.reverse])
  | .outside, c :: rest =>
    if c.isDigit then numsAux (.intPart [c]) rest else numsAux .outside rest
  | .intPart acc, c :: rest =>
    if c.isDigit then numsAux (.intPart (c :: acc)) rest
    else if c = '.' then numsAux (.pendingDot acc) rest
    else String.mk acc.reverse :: numsAux .outside rest
  | .pendingDot acc, c :: rest =>
    if c.isDigit then numsAux (.fracPart (c :: '.' :: acc)) rest
    else String.mk acc.reverse :: numsAux .outside rest
  | .fracPart acc, c :: rest =>
    if c.isDigit then numsAux (.fracPart (c :: acc)) rest
    else String.mk acc.reverse :: numsAux .outside rest

/-- `re.findall(r"\d+(?:\.\d+)?", s)` (remittance and financial flows). -/
def findNums (s : String) : List String := numsAux .outside s.data

/-- Python `list(dict.fromkeys(l))`: dedup keeping first occurrences. -/
def pydedupGo (seen : List String) : List String → List String
  | [] => []
  | x :: rest =>
    if seen.contains x then pydedupGo seen rest
    else x :: pydedupGo (x :: seen) rest

/-- Python `list(dict.fromkeys(l))`. -/
def pydedup (l : List String) : List String := pydedupGo [] l

/-- Regex word character (`\w`), ASCII. -/
def isWordChar (c : Char) : Bool := c.isAlphanum || c = '_'

/-- Attempt the scam-flow amount pattern
`\b(?:sgd|s\$|\$)?\s?\d{1,4}(?:[.,]\d{2})?\b` at the head of `l`, where
`prevWord` tells whether the character before `l` is a word character
(start of string counts as non-word).  Alternatives are tried in the
regex's backtracking order: currency prefixes longest-declared first then
empty, an optional single whitespace, greedily 4 down to 1 digits, the
two-decimal tail before its absence, and a final word-boundary test.
Returns the match length. -/
def tryAmount (prevWord : Bool) (l : List Char) : Option Nat :=
  match l with
  | [] => none
  | c0 :: _ =>
    if prevWord = isWordChar c0 then none
    else
      let boundaryAfter : List Char → Bool := fun r =>
        match r with
        | c :: _ => !isWordChar c
        | [] => true
      let prefixes : List (List Char) := [['s', 'g', 'd'], ['s', '$'], ['$'], []]
      prefixes.findSome? (fun pre =>
        if pre.isPrefixOf l then
          let l1 := l.drop pre.length
          let wsLens : List Nat := [1, 0]
          wsLens.findSome? (fun w =>
            let okWs := if w = 1 then (match l1 with | c :: _ => pyWS c | [] => false) else true
            if okWs then
              let l2 := l1.drop w
              let digitCounts : List Nat := [4, 3, 2, 1]
              digitCounts.findSome? (fun d =>
                let ds := l2.take d
                if ds.length = d ∧ ds.all Char.isDigit then
                  let l3 := l2.drop d
                  let withTail : Option Nat :=
                    match l3 with
                    | s :: d1 :: d2 :: rest2 =>
                      if (s = '.' ∨ s = ',') ∧ d1.isDigit ∧ d2.isDigit then
                        if boundaryAfter rest2 then some (pre.length + w + d + 3) else none
                      else none
                    | _ => none
                  match withTail with
                  | some k => some k
                  | none => if boundaryAfter l3 then some (pre.length + w + d) else none
                else none)
            else none)
        else none)

/-- The `re.findall` driver for the amount pattern: scan left to right,
emit each match, resume after its end (every match ends in a digit, a word
character). -/
def goAm (prevWord : Bool) (l : List Char) : List String :=
  match l with
  | [] => []
  | c :: rest =>
    match tryAmount prevWord (c :: rest) with
    | some k =>
      if h : k = 0 then goAm (isWordChar c) rest
      else
        let m := (c :: rest).take k
        let nextPrev := match m.getLast? with | some ch => isWordChar ch | none => prevWord
        String.mk m :: goAm nextPrev ((c :: rest).drop k)
    | none => goAm (isWordChar c) rest
termination_by l.length
decreasing_by
  all_goals simp only [List.length_drop, List.length_cons]
  all_goals omega

/-- `re.findall(r"\b(?:sgd|s\$|\$)?\s?\d{1,4}(?:[.,]\d{2})?\b", s)`
(scam flow, `_extract_requests`). -/
def findAmounts (s : String) : List String := goAm false s.data

/-! ## The session state and flow replies

The Streamlit session dict (`st.session_state`) is shared by all three
flows; each key that any flow reads or writes is one field, `none`
modelling an absent key / Python `None`. -/

/-- The mutable session bag, as touched by the flow modules. -/
structure Session where
  flow : Option String := none
  flow_state : Option String := none
  country : Option String := none
  method : Option String := none
  amount : Option String := none
  goal : Option String := none
  horizon : Option String := none
  income : Option String := none
  bank_path_answer : Option String := none
  bank_path_sources : Option (List String) := none
  scam_scenario : Option String := none
  scam_channel : Option String := none
  scam_requests : Option (List String) := none
deriving DecidableEq

/-- The dict every `handle_*_turn` returns:
`{ text, used_backend, used_rag, sources, done }`. -/
structure FlowResp where
  text : String
  used_backend : Bool
  used_rag : Bool
  sources : List String
  done : Bool
deriving DecidableEq

/-- The affirmative words accepted by all three flows:
`("yes", "y", "yeah", "ok", "okay", "sure")`. -/
def YES_WORDS : List String := ["yes", "y", "yeah", "ok", "okay", "sure"]

/-- Shared terminal state label `DONE = "done"`. -/
def DONE : String := "done"

/-! ## `flows/remittance_flow.py` -/

def ASK_COUNTRY : String := "ask_country"
def ASK_METHOD : String := "ask_method"
def ASK_AMOUNT : String := "ask_amount_optional"
def SHOW_OPTIONS : String := "show_options"
def OFFER_BUDGET : String := "offer_budget"

/-- `METHOD_MAP` (remittance_flow.py lines 29-40), in insertion order. -/
def METHOD_MAP : List (String × String) :=
  [("bank", "bank transfer"), ("bank transfer", "bank transfer"),
   ("cash", "cash pickup"), ("pickup", "cash pickup"), ("cash pickup", "cash pickup"),
   ("wallet", "mobile wallet"), ("mobile", "mobile wallet"), ("mobile wallet", "mobile wallet"),
   ("paylah", "PayLah"), ("paynow", "PayNow")]

/-- `_DOC_KEYS` of the remittance flow (remittance_flow.py lines 43-56). -/
def REMIT_DOC_KEYS : List String :=
  ["eremittance guide to sending money home safely",
   "your guide to paylah",
   "transfer funds using dbs paylah",
   "financial institution directory",
   "documents required for account opening",
   "posb payroll account for work permit holders in singapore",
   "mw handy guide english",
   "documents required for work pass",
   "paylah", "paynow", "dbs paylah", "dbs paynow",
   "kyc", "required documents", "account opening", "work permit", "s pass", "employment pass",
   "fees", "charges", "exchange rate", "fx", "limits", "cash pickup", "bank transfer", "mobile wallet"]

/-- `_normalize_method` (remittance_flow.py lines 75-80): first `METHOD_MAP`
key, in insertion order, occurring in the lower-cased stripped text. -/
def normalize_method (text : String) : Option String :=
  let low := pstrip (plower text)
  (METHOD_MAP.find? (fun kv => pin kv.1 low)).map Prod.snd

/-- `reset_remittance_state` (remittance_flow.py lines 64-73): the first
prompt and the mutated session. -/
def reset_remittance_state (state : Session) : String × Session :=
  ("Let’s sort out **remittance** ✨\nWhich **country** do you usually send money to?",
   {state with flow := some "remittance", flow_state := some ASK_COUNTRY,
               country := none, method := none, amount := none})

/-- `handle_remittance_turn` (remittance_flow.py lines 82-180).  The one
completion-service-fallible operation of a turn is its `answer_query`
call; `Except.error (e, st)` models that call raising with the session
already mutated to `st` (Python mutates the dict in place, so writes made
before the raising call survive it). -/
def handle_remittance_turn (env : ChatEnv) (user_text : String) (state : Session) :
    Except (String × Session) (FlowResp × Session) :=
  let cur := state.flow_state.getD ASK_COUNTRY
  let user := pstrip user_text
  if cur = ASK_COUNTRY then
    if user = "" then
      .ok (⟨"Which **country** do you usually send money to?", false, false, [], false⟩, state)
    else
      let state := {state with country := some (pytitle user), flow_state := some ASK_METHOD}
      .ok (⟨"Got it — **" ++ pytitle user ++ "**. Do you prefer **bank transfer**, **cash pickup**, **mobile wallet**, **PayLah**, or **PayNow**?",
            false, false, [], false⟩, state)
  else if cur = ASK_METHOD then
    match normalize_method user with
    | none =>
      .ok (⟨"Please choose one: **bank transfer**, **cash pickup**, **mobile wallet**, **PayLah**, or **PayNow**.",
            false, false, [], false⟩, state)
    | some method =>
      let state := {state with method := some method, flow_state := some ASK_AMOUNT}
      .ok (⟨"Okay — **" ++ method ++ "**. (Optional) About how much do you usually send **per month**? You can reply with an amount like `200` or say **skip**.",
            false, false, [], false⟩, state)
  else
    let state1 :=
      if cur = ASK_AMOUNT then
        let stateA :=
          if user ≠ "" ∧ plower user ≠ "skip" then
            match findNums (stripCommas user) with
            | n :: _ => {state with amount := some n}
            | [] => state
          else state
        {stateA with flow_state := some SHOW_OPTIONS}
      else state
    if state1.flow_state = some SHOW_OPTIONS then
      let ctry := pyOrS state1.country "the destination country"
      let meth := pyOrS state1.method "a suitable method"
      let focus := " from Singapore to " ++ ctry ++ " via " ++ meth ++
        (match state1.amount with
         | some a => if a ≠ "" then " for about SGD " ++ a ++ " per month" else ""
         | none => "")
      let query := "Remittance guidance" ++ focus ++
        ". Cover: step-by-step sending process, **required documents/KYC**, expected **fees/FX considerations**, **transfer times/limits**, and safety tips for migrants. Refer to uploaded materials such as 'eremittance guide to sending money home safely', 'your guide to paylah', 'transfer funds using dbs paylah', 'financial institution directory', 'documents required for account opening', 'posb payroll account for work permit holders in singapore', and 'mw handy guide english' where relevant."
      match answer_query env query REMIT_DOC_KEYS false with
      | .error e => .error (e, state1)
      | .ok res =>
        let state2 := {state1 with flow_state := some OFFER_BUDGET}
        .ok (⟨"Here’s what to expect when sending money to **" ++ ctry ++ "** via **" ++ meth ++ "**:\n\n" ++
              res.answer ++
              "\n\nWould you also like **simple budgeting tips** to help plan your remittances each month? (yes/no)",
              true, res.used_rag, res.sources, false⟩, state2)
    else if state1.flow_state = some OFFER_BUDGET then
      if plower user ∈ YES_WORDS then
        let ctry := pyOrS state1.country "home country"
        let q := "Budgeting tips for migrant workers in Singapore who remit monthly to " ++ ctry ++
          ". Be practical and simple: a % split for needs/remittance/savings, small emergency fund, remittance fee timing/FX basics, and caution against scams. If available, ground guidance using 'mw handy guide english', 'financial institution directory', and PayLah/PayNow guides."
        match answer_query env q REMIT_DOC_KEYS false with
        | .error e => .error (e, state1)
        | .ok res =>
          let state2 := {state1 with flow_state := some DONE, flow := none}
          .ok (⟨"Great — here are some budgeting tips:\n\n" ++ res.answer ++ "\n\nYou can ask another question anytime.",
                true, res.used_rag, res.sources, true⟩, state2)
      else
        let state2 := {state1 with flow_state := some DONE, flow := none}
        .ok (⟨"No worries. You can ask another question anytime.", false, false, [], true⟩, state2)
    else
      let state2 := {state1 with flow_state := some DONE, flow := none}
      .ok (⟨"Okay, ending this remittance flow. Ask me anything else.", false, false, [], true⟩, state2)

/-! ## `flows/financial_flow.py` -/

def ASK_GOAL : String := "ask_goal"
def ASK_HORIZ : String := "ask_horizon"
def ASK_INCOME : String := "ask_income_optional"
def ASK_BANKPATH : String := "ask_bankpath"
def SHOW_TIPS : String := "show_tips"

/-- `_DOC_KEYS` of the financial flow (financial_flow.py lines 30-44). -/
def FIN_DOC_KEYS : List String :=
  ["documents required for work pass",
   "your guide to paylah",
   "transfer funds using dbs paylah",
   "financial institution directory",
   "eremittance guide to sending money home safely",
   "documents required for account opening",
   "posb payroll account for work permit holders in singapore",
   "mw handy guide english",
   "paylah", "paynow", "dbs paylah", "dbs paynow",
   "account opening", "required documents", "kyc", "work permit", "s pass", "employment pass",
   "posb payroll", "minimum balance", "bank fees", "limits", "transfer", "remittance"]

/-- `_PLAN_KEYS` of the financial flow (financial_flow.py lines 47-52). -/
def FIN_PLAN_KEYS : List String :=
  ["budget", "budgeting", "savings", "emergency fund",
   "remittance", "fees", "fx", "limits", "paylah", "paynow",
   "bank account", "account opening", "posb payroll", "financial institution directory",
   "migrant worker", "handy guide"]

/-- Python `str(x)` as applied by an f-string to `state.get(...)`:
`None` prints as `"None"`. -/
def optStr (o : Option String) : String :=
  match o with
  | some s => s
  | none => "None"

/-- `reset_financial_state` (financial_flow.py lines 60-69).  Note it does
not touch `bank_path_answer` / `bank_path_sources`. -/
def reset_financial_state (state : Session) : String × Session :=
  ("Let’s plan your money 📈\nWhat’s your main **goal**? (e.g., save for family, emergency fund, pay debt)",
   {state with flow := some "financial", flow_state := some ASK_GOAL,
               goal := none, horizon := none, income := none})

/-- The `SHOW_TIPS` tail of `handle_financial_turn` (financial_flow.py
lines 123-152), reached by fall-through from `ASK_BANKPATH` or directly;
factored out because Python reaches it from both paths in one function
body. -/
def financial_show_tips (env : ChatEnv) (state : Session) :
    Except (String × Session) (FlowResp × Session) :=
  if state.flow_state = some SHOW_TIPS then
    let income_part :=
      match state.income with
      | some i => if i ≠ "" then " Monthly income: SGD " ++ i ++ "." else ""
      | none => ""
    let q := "Financial planning tips tailored for a migrant worker in Singapore." ++
      " Goal: " ++ optStr state.goal ++ ". Time horizon: " ++ optStr state.horizon ++ "." ++ income_part ++
      " Keep it practical and simple: budgeting % split (needs/remittance/savings), small emergency fund, **remittance fee/FX basics**, and **how PayLah/PayNow can help for day-to-day**. If available, ground guidance using 'mw handy guide english', 'your guide to paylah', 'transfer funds using dbs paylah', and 'financial institution directory'."
    match answer_query env q (FIN_PLAN_KEYS ++ FIN_DOC_KEYS) false with
    | .error e => .error (e, state)
    | .ok res =>
      let bank_block :=
        match state.bank_path_answer with
        | some a => if a ≠ "" then "**Bank account setup (quick guide):**\n\n" ++ a ++ "\n\n" else ""
        | none => ""
      let state2 := {state with flow_state := some DONE, flow := none}
      .ok (⟨bank_block ++ "**Simple plan:**\n\n" ++ res.answer ++ "\n\nYou can ask another question anytime.",
            true,
            res.used_rag || (match state.bank_path_sources with | some l => !l.isEmpty | none => false),
            pydedup ((state.bank_path_sources.getD []) ++ res.sources),
            true⟩, state2)
  else
    .ok (⟨"Okay, ending this planning flow. Ask me anything else.", false, false, [], true⟩,
         {state with flow_state := some DONE, flow := none})

/-- `handle_financial_turn` (financial_flow.py lines 71-152).  A turn can
make two `answer_query` calls (bank-path guidance, then tips): `envBank`
and `envTips` are the oracles of the first and second call. -/
def handle_financial_turn (envBank envTips : ChatEnv) (user_text : String) (state : Session) :
    Except (String × Session) (FlowResp × Session) :=
  let cur := state.flow_state.getD ASK_GOAL
  let user := pstrip user_text
  if cur = ASK_GOAL then
    if user = "" then
      .ok (⟨"What’s your main **goal**?", false, false, [], false⟩, state)
    else
      let state := {state with goal := some user, flow_state := some ASK_HORIZ}
      .ok (⟨"What’s your **time horizon**? (e.g., 3 months, 1 year)", false, false, [], false⟩, state)
  else if cur = ASK_HORIZ then
    if user = "" then
      .ok (⟨"Please share a rough **time horizon** (e.g., 6 months).", false, false, [], false⟩, state)
    else
      let state := {state with horizon := some user, flow_state := some ASK_INCOME}
      .ok (⟨"Optional: What’s your **monthly income** in SGD? (e.g., 900) You can also reply **skip**.",
            false, false, [], false⟩, state)
  else if cur = ASK_INCOME then
    let stateA :=
      if user ≠ "" ∧ plower user ≠ "skip" then
        match findNums (stripCommas user) with
        | n :: _ => {state with income := some n}
        | [] => state
      else state
    let state1 := {stateA with flow_state := some ASK_BANKPATH}
    .ok (⟨"Would you like help **setting up a simple bank account** first? This can make saving and remitting easier (e.g., POSB payroll, low minimum balance, PayLah/PayNow). (yes/no)",
          false, false, [], false⟩, state1)
  else if cur = ASK_BANKPATH then
    if plower user ∈ YES_WORDS then
      let q := "Step-by-step **bank account setup** in Singapore for a migrant worker. Cover: **documents required for account opening** (KYC), options for **low or no minimum balance**, **POSB payroll account for Work Permit holders**, and how **PayLah/PayNow** link to accounts. Keep it simple and practical. Use uploaded context such as 'documents required for account opening', 'posb payroll account for work permit holders in singapore', 'financial institution directory', and 'mw handy guide english' if available."
      match answer_query envBank q FIN_DOC_KEYS false with
      | .error e => .error (e, state)
      | .ok res =>
        financial_show_tips envTips
          {state with bank_path_answer := some res.answer,
                      bank_path_sources := some res.sources,
                      flow_state := some SHOW_TIPS}
    else
      financial_show_tips envTips {state with flow_state := some SHOW_TIPS}
  else
    financial_show_tips envTips state

/-! ## `flows/scam_flow.py` -/

def ASK_SCENARIO : String := "ask_scenario"
def ASK_CHANNEL : String := "ask_channel"
def ASK_REQUESTS : String := "ask_requests"
def SUMMARIZE_RISK : String := "summarize_risk"
def PROVIDE_STEPS : String := "provide_steps"

/-- `CHANNEL_MAP` (scam_flow.py lines 30-47), in insertion order. -/
def CHANNEL_MAP : List (String × String) :=
  [("sms", "SMS"), ("text", "SMS"), ("whatsapp", "WhatsApp"), ("wechat", "WeChat"),
   ("telegram", "Telegram"), ("call", "Phone call"), ("phone", "Phone call"),
   ("email", "Email"), ("site", "Website"), ("web", "Website"), ("website", "Website"),
   ("facebook", "Facebook"), ("instagram", "Instagram"), ("tiktok", "TikTok"),
   ("agent", "In-person agent"), ("in person", "In-person agent")]

/-- `REQUEST_KEYWORDS` (scam_flow.py lines 49-53). -/
def REQUEST_KEYWORDS : List String :=
  ["upfront fee", "processing fee", "deposit", "gift card", "crypto", "bitcoin",
   "bank transfer", "paynow", "otp", "one-time password", "password",
   "nric", "passport", "work permit", "bank details", "account number"]

/-- The `require_keywords` tuple of the scam flow's one backend call
(scam_flow.py lines 150-154). -/
def SCAM_REQUIRE_KEYS : List String :=
  ["scam", "fraud", "phishing", "impersonation", "anti-scam", "report",
   "police", "otp", "password", "upfront fee", "deposit", "processing fee",
   "bank details", "account number"]

/-- `_normalize_channel` (scam_flow.py lines 66-71). -/
def normalize_channel (text : String) : Option String :=
  let low := plower text
  (CHANNEL_MAP.find? (fun kv => pin kv.1 low)).map Prod.snd

/-- `_extract_requests` (scam_flow.py lines 73-83): keyword hits in order,
then stripped amount matches, deduped keeping first occurrences. -/
def extract_requests (text : String) : List String :=
  let low := plower text
  let hits := REQUEST_KEYWORDS.filter (fun k => pin k low)
  let amounts := findAmounts low
  pydedup (hits ++ amounts.map pstrip)

/-- `reset_scam_state` (scam_flow.py lines 55-64). -/
def reset_scam_state (state : Session) : String × Session :=
  ("I’m here to help you stay safe. 🛡️\n\n**What happened?** Please describe the message/call/offer in your own words.",
   {state with flow := some "scam", flow_state := some ASK_SCENARIO,
               scam_scenario := none, scam_channel := none, scam_requests := none})

/-- The static reporting tips of the scam flow (scam_flow.py lines 173-182). -/
def SCAM_TIPS : String :=
  "Here are safe next steps:\n\n1) **Stop contact** with the sender/caller. Do not click links or scan QR codes.\n2) **Do not share** OTP, passwords, banking details, or ID images.\n3) **Verify independently** with official sources (e.g., visit the agency/bank’s official site or hotline from their official page).\n4) **Document** the evidence (screenshots, phone numbers, usernames) in case you need to report.\n5) **Report** through official Singapore channels (e.g., national anti-scam resources or the police e-services portal). Use only contacts listed on the official websites.\n6) If you already sent money or shared details, **contact your bank immediately** to secure your account.\n"

/-- `handle_scam_turn` (scam_flow.py lines 85-200). -/
def handle_scam_turn (env : ChatEnv) (user_text : String) (state : Session) :
    Except (String × Session) (FlowResp × Session) :=
  let cur := state.flow_state.getD ASK_SCENARIO
  let user := pstrip user_text
  if cur = ASK_SCENARIO then
    if user = "" then
      .ok (⟨"Please describe the situation (what was said/sent to you).", false, false, [], false⟩, state)
    else
      let state := {state with scam_scenario := some user, flow_state := some ASK_CHANNEL}
      .ok (⟨"Where did this happen? (e.g., **SMS**, **WhatsApp**, **Phone call**, **Website**, **In-person agent**)",
            false, false, [], false⟩, state)
  else if cur = ASK_CHANNEL then
    match normalize_channel user with
    | none =>
      .ok (⟨"Please tell me the channel: **SMS**, **WhatsApp/WeChat/Telegram**, **Phone call**, **Email/Website**, or **In-person agent**.",
            false, false, [], false⟩, state)
    | some ch =>
      let state := {state with scam_channel := some ch, flow_state := some ASK_REQUESTS}
      .ok (⟨"Thanks. Did they ask for anything like **money (upfront/fees)**, **bank details**, or your **OTP/passport**? Feel free to paste exact wording. If nothing specific, you can say **not sure**.",
            false, false, [], false⟩, state)
  else
    let state1 :=
      if cur = ASK_REQUESTS then
        let hits := extract_requests user
        let reqs := if hits ≠ [] then hits
                    else if plower user = "not sure" then ["not sure"] else []
        {state with scam_requests := some reqs, flow_state := some SUMMARIZE_RISK}
      else state
    if state1.flow_state = some SUMMARIZE_RISK then
      let scenario := pyOrS state1.scam_scenario ""
      let channel := pyOrS state1.scam_channel "Unknown channel"
      let requestsJ := String.intercalate ", " (state1.scam_requests.getD [])
      let requests := if requestsJ = "" then "No specific requests" else requestsJ
      let query := "Scam safety check for a migrant worker in Singapore. Channel: " ++ channel ++
        ". Key details: " ++ scenario ++ ". Requests mentioned: " ++ requests ++
        ". Identify red flags in bullet points, then give clear DO/DON'T steps in simple English. Emphasize: do not share OTP/password, do not pay upfront fees or deposits to strangers, verify with official channels directly, and stop contact if pressured."
      match answer_query env query SCAM_REQUIRE_KEYS false with
      | .error e => .error (e, state1)
      | .ok res =>
        let state2 := {state1 with flow_state := some PROVIDE_STEPS}
        .ok (⟨"**Let’s review this safely:**\n\n" ++ res.answer ++
              "\n\nIf you like, I can also show **how to report** and where to get official help. Would you like that? (yes/no)",
              true, res.used_rag, res.sources, false⟩, state2)
    else if state1.flow_state = some PROVIDE_STEPS then
      if plower user ∈ YES_WORDS then
        let state2 := {state1 with flow_state := some DONE, flow := none}
        .ok (⟨SCAM_TIPS ++ "\nStay safe. You can ask me anything else anytime.", false, false, [], true⟩, state2)
      else
        let state2 := {state1 with flow_state := some DONE, flow := none}
        .ok (⟨"No problem. Stay safe — and feel free to ask anything else.", false, false, [], true⟩, state2)
    else
      let state2 := {state1 with flow_state := some DONE, flow := none}
      .ok (⟨"Okay, ending this safety check. Ask me anything else.", false, false, [], true⟩, state2)

/-! ## Helper lemmas -/

/-- What a successful `fallback_result` looks like. -/
theorem fallback_result_spec {env : ChatEnv} {srcs : List String} {hadCtx : Bool}
    {res : AnswerResult} (h : fallback_result env srcs hadCtx = .ok res) :
    res.used_rag = false ∧ res.fallback_used = true ∧ res.sources = srcs ∧
    ∃ graw, env.generalChat = .ok graw ∧
      res.answer = (if hadCtx then FALLBACK_NOTICE else "") ++ sealion_out graw := by
  unfold fallback_result at h
  rcases hG : env.generalChat with e | graw <;> rw [hG] at h
  · exact absurd h (by simp)
  · refine ⟨?_, ?_, ?_, graw, rfl, ?_⟩ <;> cases h <;> rfl

/-- Every successful branch of `answer_query` returns the retrieval-time
source list. -/
theorem answer_query_sources {env : ChatEnv} {u : String} {rk : List String}
    {fg : Bool} {res : AnswerResult} (h : answer_query env u rk fg = .ok res) :
    res.sources = retrievedSrcs env := by
  simp only [answer_query] at h
  split at h
  · split at h
    · simp at h
    · split at h
      · split at h
        · cases h; rfl
        · exact (fallback_result_spec h).2.2.1
      · exact (fallback_result_spec h).2.2.1
  · exact (fallback_result_spec h).2.2.1

/-- The keyword gate of `answer_query` step 2 always computes the
single-lowering keyword filter: double-lowering the keys changes nothing
(`plower` is idempotent), and the `sel = []` / `any_hit` interplay makes
the "no match" case coincide with the filter being empty. -/
theorem gateKeywords_eq_filter (rk ctx : List String) :
    gateKeywords rk ctx =
      ctx.filter (fun c => rk.any (fun k => pin (plower k) (plower c))) := by
  have hf : ctx.filter (fun c => ((rk.map plower).map plower).any (fun k => pin k (plower c)))
      = ctx.filter (fun c => rk.any (fun k => pin (plower k) (plower c))) := by
    apply List.filter_congr
    intro c _
    simp only [List.any_map]
    congr 1
    funext k
    simp only [Function.comp_apply, plower_plower]
  simp only [gateKeywords, hf]
  split
  · rename_i hsel
    have hhit : any_hit rk ctx = false := by
      unfold any_hit
      rw [List.any_eq_false]
      intro c hc
      have := List.filter_eq_nil_iff.mp hsel c hc
      exact this
    rw [hhit]
    simp [hsel]
  · rfl

/-- `any_hit` is false exactly when the keyword filter keeps nothing. -/
theorem any_hit_false_iff (rk ctx : List String) :
    any_hit rk ctx = false ↔
      ctx.filter (fun c => rk.any (fun k => pin (plower k) (plower c))) = [] := by
  unfold any_hit
  rw [List.any_eq_false, List.filter_eq_nil_iff]

/-- When gating leaves no chunks, `answer_query` goes straight to the
fallback with no notice. -/
theorem answer_query_no_ctx {env : ChatEnv} {u : String} {rk : List String}
    {fg : Bool} (hg : gatedChunks env u rk fg = []) :
    answer_query env u rk fg = fallback_result env (retrievedSrcs env) false := by
  simp only [answer_query]
  rw [if_neg (by simp [hg]), hg]
  rfl

/-- When gating keeps chunks and the grounded output is the sentinel, a
refusal, or empty, `answer_query` returns the noticed fallback. -/
theorem answer_query_miss {env : ChatEnv} {u : String} {rk : List String}
    {fg : Bool} {raw : String} (hR : env.ragChat = .ok raw)
    (hg : gatedChunks env u rk fg ≠ [])
    (hmiss : sealion_out raw = "" ∨ pstrip (sealion_out raw) = NOT_FOUND_TOKEN ∨
      ∃ p ∈ refusal_patterns, pin p (plower (pstrip (sealion_out raw))) = true) :
    answer_query env u rk fg = fallback_result env (retrievedSrcs env) true := by
  have hne : (gatedChunks env u rk fg).isEmpty = false := List.isEmpty_eq_false.mpr hg
  simp only [answer_query]
  rw [if_pos hg, hR]
  dsimp only
  by_cases he : sealion_out raw = ""
  · rw [if_neg (by simp [he]), hne]
    rfl
  · rw [if_pos he]
    have hC : ¬(pstrip (sealion_out raw) ≠ NOT_FOUND_TOKEN ∧
        ¬(refusal_patterns.any fun pat => pin pat (plower (pstrip (sealion_out raw)))) = true) := by
      rcases hmiss with he2 | hsent | ⟨p, hp, hpin⟩
      · exact absurd he2 he
      · intro hc
        exact hc.1 hsent
      · intro hc
        exact hc.2 (List.any_eq_true.mpr ⟨p, hp, hpin⟩)
    rw [if_neg hC, hne]
    rfl


/-- The `clamp_context` loop keeps every chunk verbatim while the running
total stays within the budget. -/
theorem clamp_go_all_kept (max_chars : Nat) :
    ∀ (chunks : List String) (total : Nat),
      (∀ c ∈ chunks, pstrip c = c ∧ c ≠ "") →
      total + (chunks.map String.length).sum ≤ max_chars →
      clamp_go max_chars chunks total = chunks := by
  intro chunks
  induction chunks with
  | nil =>
    intro total _ _
    rfl
  | cons c rest ih =>
    intro total hall hbud
    obtain ⟨hs, hne⟩ := hall c (List.mem_cons_self c rest)
    simp only [List.map_cons, List.sum_cons] at hbud
    simp only [clamp_go]
    rw [hs, if_neg hne, if_neg (by omega)]
    congr 1
    exact ih (total + c.length) (fun x hx => hall x (List.mem_cons_of_mem c hx)) (by omega)

/-- A noticed fallback result's answer starts with the fallback notice. -/
theorem fallback_answer_notice {env : ChatEnv} {srcs : List String}
    {l : List String} {res : AnswerResult} (hl : l ≠ [])
    (h : fallback_result env srcs (!l.isEmpty) = .ok res) :
    FALLBACK_NOTICE.data <+: res.answer.data := by
  obtain ⟨-, -, -, graw, -, hans⟩ := fallback_result_spec h
  rw [List.isEmpty_eq_false.mpr hl] at hans
  simp only [Bool.not_false, if_true] at hans
  rw [hans, String.data_append]
  exact ⟨(sealion_out graw).data, rfl⟩

/-! ## Claims -/

/-- **C8**: the soft dependencies never raise: an exception from the
underlying index inside `retrieve_context` yields the empty result
(no passages, no sources), and a language-detection failure makes
`detect_lang` return the default `"en"`. -/
theorem c8_soft_failures_degrade (e : String) (top_k : Nat) :
    retrieve_context (Except.error e) top_k = ([], []) ∧ detect_lang none = "en" :=
  ⟨rfl, rfl⟩

/-- **C9**: for passages already stripped and non-empty with total length
within the 48,000-character budget, `clamp_context` returns exactly the
passages, unchanged and in order, joined by the separator — in particular
no truncation marker is added. -/
theorem c9_clamp_identity_under_budget (chunks : List String)
    (hall : ∀ c ∈ chunks, pstrip c = c ∧ c ≠ "")
    (hbud : (chunks.map String.length).sum ≤ 48000) :
    clamp_context chunks 48000 = String.intercalate "\n\n---\n\n" chunks := by
  unfold clamp_context
  rw [clamp_go_all_kept 48000 chunks 0 hall (by omega)]

/-- Witness for C9 at a concrete under-budget passage list. -/
theorem c9_witness :
    clamp_context ["ab", "cd"] 48000 = String.intercalate "\n\n---\n\n" ["ab", "cd"] :=
  c9_clamp_identity_under_budget ["ab", "cd"] (by decide) (by decide)

/-- **C7**: in every successful return path of `answer_query` — grounded
success as well as fallback — the `sources` field is the source list
gathered at retrieval time, in retrieval order, regardless of gating. -/
theorem c7_sources_from_retrieval (env : ChatEnv) (u : String) (rk : List String)
    (fg : Bool) (res : AnswerResult) (h : answer_query env u rk fg = .ok res) :
    res.sources = retrievedSrcs env :=
  answer_query_sources h

def c7env : ChatEnv :=
  ⟨none, .ok [⟨some "alpha", some ⟨some "doc1.pdf", none, none⟩⟩], .ok "ok answer", .ok "G", .ok "t"⟩

/-- Witness for C7 at a concrete grounded-success run. -/
theorem c7_witness :
    (AnswerResult.mk "ok answer" true ["doc1.pdf"] false).sources = retrievedSrcs c7env :=
  c7_sources_from_retrieval c7env "q" [] false _ (by decide)

/-- **C1**: with a non-empty `require_keywords` and `force_general` off,
the gate keeps exactly the retrieved passages containing at least one
required keyword (case-insensitively); when no keyword occurs in any
retrieved passage the gate empties the context, the grounded attempt is
skipped (the call reduces to the un-noticed fallback), and the result has
`used_rag = false` and `fallback_used = true`. -/
theorem c1_required_keyword_gate (env : ChatEnv) (u : String) (rk : List String)
    (hrk : rk ≠ []) :
    gatedChunks env u rk false =
      (retrievedChunks env).filter (fun c => rk.any (fun k => pin (plower k) (plower c))) ∧
    (any_hit rk (retrievedChunks env) = false →
      gatedChunks env u rk false = [] ∧
      answer_query env u rk false = fallback_result env (retrievedSrcs env) false ∧
      ∀ res, answer_query env u rk false = .ok res →
        res.used_rag = false ∧ res.fallback_used = true) := by
  have hgate : gatedChunks env u rk false =
      (retrievedChunks env).filter (fun c => rk.any (fun k => pin (plower k) (plower c))) := by
    simp only [gatedChunks]
    rw [if_neg (by simp), if_pos hrk]
    exact gateKeywords_eq_filter rk (retrievedChunks env)
  refine ⟨hgate, fun hhit => ?_⟩
  have hnil : gatedChunks env u rk false = [] := by
    rw [hgate]
    exact (any_hit_false_iff rk (retrievedChunks env)).mp hhit
  refine ⟨hnil, answer_query_no_ctx hnil, fun res h => ?_⟩
  rw [answer_query_no_ctx hnil] at h
  exact ⟨(fallback_result_spec h).1, (fallback_result_spec h).2.1⟩

def c1env : ChatEnv :=
  ⟨none, .ok [⟨some "alpha beta", none⟩], .ok "grounded", .ok "G", .ok "t"⟩

/-- Witness for C1: one retrieved passage, a keyword matching nothing. -/
theorem c1_witness :
    gatedChunks c1env "q" ["zzz"] false = [] ∧
    answer_query c1env "q" ["zzz"] false = fallback_result c1env (retrievedSrcs c1env) false :=
  ⟨((c1_required_keyword_gate c1env "q" ["zzz"] (by decide)).2 (by decide)).1,
   ((c1_required_keyword_gate c1env "q" ["zzz"] (by decide)).2 (by decide)).2.1⟩

/-- **C2**: when passages survive gating, a grounded output exactly equal
to the sentinel and one merely containing a refusal phrasing
(case-insensitive substring) are treated identically: both produce the
same fallback return, with `used_rag = false` and `fallback_used = true`. -/
theorem c2_sentinel_equals_refusal (env : ChatEnv) (u : String) (rk : List String)
    (fg : Bool) (raw : String) (hR : env.ragChat = .ok raw)
    (hg : gatedChunks env u rk fg ≠ [])
    (hmiss : pstrip (sealion_out raw) = NOT_FOUND_TOKEN ∨
      ∃ p ∈ refusal_patterns, pin p (plower (pstrip (sealion_out raw))) = true) :
    answer_query env u rk fg = fallback_result env (retrievedSrcs env) true ∧
    ∀ res, answer_query env u rk fg = .ok res →
      res.used_rag = false ∧ res.fallback_used = true := by
  have hmain := answer_query_miss hR hg (Or.inr hmiss)
  refine ⟨hmain, fun res h => ?_⟩
  rw [hmain] at h
  exact ⟨(fallback_result_spec h).1, (fallback_result_spec h).2.1⟩

def c2env : ChatEnv :=
  ⟨none, .ok [⟨some "alpha", none⟩], .ok "<<NOT_FOUND>>", .ok "G", .ok "t"⟩

/-- Witness for C2 at a concrete sentinel answer. -/
theorem c2_witness :
    answer_query c2env "q" [] false = fallback_result c2env (retrievedSrcs c2env) true :=
  (c2_sentinel_equals_refusal c2env "q" [] false "<<NOT_FOUND>>" rfl (by decide)
    (Or.inl (by decide))).1

/-- **C10**: when passages survive gating but the grounded completion
returns an empty (post-strip) string, `answer_query` does not return a
grounded result: it produces the same fallback return as a sentinel or
refusal miss, with `used_rag = false` and `fallback_used = true`. -/
theorem c10_empty_completion_falls_back (env : ChatEnv) (u : String)
    (rk : List String) (fg : Bool) (raw : String) (hR : env.ragChat = .ok raw)
    (hg : gatedChunks env u rk fg ≠ []) (he : sealion_out raw = "") :
    answer_query env u rk fg = fallback_result env (retrievedSrcs env) true ∧
    ∀ res, answer_query env u rk fg = .ok res →
      res.used_rag = false ∧ res.fallback_used = true := by
  have hmain := answer_query_miss hR hg (Or.inl he)
  refine ⟨hmain, fun res h => ?_⟩
  rw [hmain] at h
  exact ⟨(fallback_result_spec h).1, (fallback_result_spec h).2.1⟩

def c10env : ChatEnv :=
  ⟨none, .ok [⟨some "alpha", none⟩], .ok "  ", .ok "G", .ok "t"⟩

/-- Witness for C10 at a whitespace-only grounded completion. -/
theorem c10_witness :
    answer_query c10env "q" [] false = fallback_result c10env (retrievedSrcs c10env) true :=
  (c10_empty_completion_falls_back c10env "q" [] false "  " rfl (by decide) (by decide)).1

/-- **C4** (amended): the fallback notice is keyed to the post-gating
context, not the pre-gating one: when gating discarded every retrieved
passage the fallback answer is exactly the general reply with no notice;
the notice is prepended (the answer starts with it) exactly when passages
survived gating but the grounded attempt missed. -/
theorem c4_notice_requires_surviving_ctx (env : ChatEnv) (u : String)
    (rk : List String) (fg : Bool) (graw : String)
    (hG : env.generalChat = .ok graw) :
    (gatedChunks env u rk fg = [] →
      answer_query env u rk fg = .ok ⟨sealion_out graw, false, retrievedSrcs env, true⟩) ∧
    (∀ res, answer_query env u rk fg = .ok res → res.fallback_used = true →
      gatedChunks env u rk fg ≠ [] →
      FALLBACK_NOTICE.data <+: res.answer.data) := by
  constructor
  · intro hg
    rw [answer_query_no_ctx hg]
    unfold fallback_result
    rw [hG]
    rfl
  · intro res h hfb hg
    simp only [answer_query] at h
    rw [if_pos hg] at h
    rcases hRg : env.ragChat with e | raw
    · rw [hRg] at h
      simp at h
    · rw [hRg] at h
      dsimp only at h
      by_cases he : sealion_out raw = ""
      · rw [if_neg (by simp [he])] at h
        exact fallback_answer_notice hg h
      · rw [if_pos he] at h
        by_cases hcond : pstrip (sealion_out raw) ≠ NOT_FOUND_TOKEN ∧
            ¬(refusal_patterns.any fun pat => pin pat (plower (pstrip (sealion_out raw)))) = true
        · rw [if_pos hcond] at h
          cases h
          simp at hfb
        · rw [if_neg hcond] at h
          exact fallback_answer_notice hg h

def c4cexEnv : ChatEnv :=
  ⟨none, .ok [⟨some "alpha", none⟩], .ok "grounded", .ok "G", .ok "t"⟩

/-- **C4** counterexample: retrieval returned a passage, the
required-keyword gate discarded all passages, and the returned fallback
answer is exactly the general reply `"G"` — it does not begin with the
visible fallback notice, contrary to the claim. -/
theorem c4_counterexample :
    retrievedChunks c4cexEnv ≠ [] ∧
    gatedChunks c4cexEnv "q" ["zzz"] false = [] ∧
    answer_query c4cexEnv "q" ["zzz"] false = .ok ⟨"G", false, ["unknown"], true⟩ ∧
    ¬ (FALLBACK_NOTICE.data <+: (AnswerResult.mk "G" false ["unknown"] true).answer.data) :=
  ⟨by decide, by decide, by decide, by decide⟩

/-- Witness for the amended C4 at a concrete gate-discarded run. -/
theorem c4_witness :
    answer_query c4cexEnv "q" ["zzz"] false =
      .ok ⟨sealion_out "G", false, retrievedSrcs c4cexEnv, true⟩ :=
  (c4_notice_requires_surviving_ctx c4cexEnv "q" ["zzz"] false "G" rfl).1 (by decide)

/-- An environment whose completion calls fail with a transport error
(retrieval is empty, so `answer_query` dies in the fallback call). -/
def errEnv : ChatEnv := ⟨none, .ok [], .ok "", .error "boom", .ok ""⟩

def c3st : Session :=
  { flow := some "remittance", flow_state := some ASK_AMOUNT,
    country := some "Vietnam", method := some "bank transfer" }

def c3st' : Session :=
  { flow := some "remittance", flow_state := some SHOW_OPTIONS,
    country := some "Vietnam", method := some "bank transfer", amount := some "200" }

/-- **C3** counterexample: a remittance turn that begins at
`ask_amount_optional` writes the `amount` slot and advances `flow_state`
to `show_options` before falling through to the Answer Engine call; when
that call raises a transport error, the error propagates but the session
is left mutated, not as it was before the turn. -/
theorem c3_counterexample :
    handle_remittance_turn errEnv "200" c3st = .error ("boom", c3st') ∧ c3st' ≠ c3st :=
  ⟨by decide, by decide⟩

/-- **C3** (amended): a completion-service transport error inside a flow
turn always propagates to the caller; the session state is exactly what it
was before the turn whenever the turn began in the state that itself
performs the Answer Engine call (`show_options` for remittance,
`show_tips` for financial, `summarize_risk` for scam) — but when that
state is reached by fall-through from the optional slot state in the same
turn, the slot and `flow_state` writes made earlier in the turn persist. -/
theorem c3_call_state_error_preserves_state (env envB envT : ChatEnv) (u : String)
    (st : Session) (e : String) (st' : Session) :
    (st.flow_state = some SHOW_OPTIONS →
      handle_remittance_turn env u st = .error (e, st') → st' = st) ∧
    (st.flow_state = some SHOW_TIPS →
      handle_financial_turn envB envT u st = .error (e, st') → st' = st) ∧
    (st.flow_state = some SUMMARIZE_RISK →
      handle_scam_turn env u st = .error (e, st') → st' = st) := by
  refine ⟨fun h1 h2 => ?_, fun h1 h2 => ?_, fun h1 h2 => ?_⟩
  · simp only [handle_remittance_turn] at h2
    rw [h1, Option.getD_some] at h2
    rw [if_neg (show ¬(SHOW_OPTIONS = ASK_COUNTRY) by decide),
        if_neg (show ¬(SHOW_OPTIONS = ASK_METHOD) by decide),
        if_neg (show ¬(SHOW_OPTIONS = ASK_AMOUNT) by decide), if_pos h1] at h2
    split at h2
    · simp only [Except.error.injEq, Prod.mk.injEq] at h2
      exact h2.2.symm
    · simp at h2
  · simp only [handle_financial_turn] at h2
    rw [h1, Option.getD_some] at h2
    rw [if_neg (show ¬(SHOW_TIPS = ASK_GOAL) by decide),
        if_neg (show ¬(SHOW_TIPS = ASK_HORIZ) by decide),
        if_neg (show ¬(SHOW_TIPS = ASK_INCOME) by decide),
        if_neg (show ¬(SHOW_TIPS = ASK_BANKPATH) by decide)] at h2
    simp only [financial_show_tips] at h2
    rw [if_pos h1] at h2
    split at h2
    · simp only [Except.error.injEq, Prod.mk.injEq] at h2
      exact h2.2.symm
    · simp at h2
  · simp only [handle_scam_turn] at h2
    rw [h1, Option.getD_some] at h2
    rw [if_neg (show ¬(SUMMARIZE_RISK = ASK_SCENARIO) by decide),
        if_neg (show ¬(SUMMARIZE_RISK = ASK_CHANNEL) by decide),
        if_neg (show ¬(SUMMARIZE_RISK = ASK_REQUESTS) by decide), if_pos h1] at h2
    split at h2
    · simp only [Except.error.injEq, Prod.mk.injEq] at h2
      exact h2.2.symm
    · simp at h2

def c3wSt : Session :=
  { flow := some "remittance", flow_state := some SHOW_OPTIONS,
    country := some "Vietnam", method := some "bank transfer", amount := some "200" }

/-- Witness for the amended C3: a turn entered directly at `show_options`
fails with the transport error and leaves the session untouched. -/
theorem c3_witness : c3wSt = c3wSt :=
  (c3_call_state_error_preserves_state errEnv errEnv errEnv "retry" c3wSt "boom" c3wSt).1
    rfl (by decide)


/-- Project the successful state out of a flow-turn result. -/
def okSession : Except (String × Session) (FlowResp × Session) → Option Session
  | .ok (_, s) => some s
  | .error _ => none

/-- An environment whose calls all succeed trivially (empty retrieval,
general reply `"G"`). -/
def c5okEnv : ChatEnv := ⟨none, .ok [], .ok "", .ok "G", .ok ""⟩

def c5st : Session :=
  { flow := some "remittance", flow_state := some ASK_AMOUNT,
    country := some "Vietnam", method := some "bank transfer" }

/-- **C5** counterexample: a remittance turn with valid input `"200"` at
the non-terminal state `ask_amount_optional` does not end at the next
documented state `show_options`: it falls through the Answer Engine call
and ends two labels later, at `offer_budget`. -/
theorem c5_counterexample :
    (okSession (handle_remittance_turn c5okEnv "200" c5st)).map Session.flow_state =
      some (some OFFER_BUDGET) ∧ OFFER_BUDGET ≠ SHOW_OPTIONS :=
  ⟨by decide, by decide⟩

/-- **C5** (amended): the validating slot states behave as claimed — valid
input advances `stateLabel` exactly one step in the documented order and
stores the slot; invalid or empty input leaves the session (state label
and every slot) unchanged and re-emits that state's fixed re-prompt (a
shorter text than the prompt shown on entering the state).  The
optional-input states (`ask_amount_optional`, `ask_income_optional`,
`ask_requests`) accept any input, and the remittance and scam turns
starting there fall through the engine-calling state, ending two labels
later (`offer_budget`, `provide_steps`). -/
theorem c5_per_state_transitions (env envB envT : ChatEnv) (u : String) (st : Session) :
    (st.flow_state = some ASK_COUNTRY → pstrip u ≠ "" →
      handle_remittance_turn env u st =
        .ok (⟨"Got it — **" ++ pytitle (pstrip u) ++ "**. Do you prefer **bank transfer**, **cash pickup**, **mobile wallet**, **PayLah**, or **PayNow**?", false, false, [], false⟩,
             {st with country := some (pytitle (pstrip u)), flow_state := some ASK_METHOD})) ∧
    (st.flow_state = some ASK_COUNTRY → pstrip u = "" →
      handle_remittance_turn env u st =
        .ok (⟨"Which **country** do you usually send money to?", false, false, [], false⟩, st)) ∧
    (∀ m, st.flow_state = some ASK_METHOD → normalize_method (pstrip u) = some m →
      handle_remittance_turn env u st =
        .ok (⟨"Okay — **" ++ m ++ "**. (Optional) About how much do you usually send **per month**? You can reply with an amount like `200` or say **skip**.", false, false, [], false⟩,
             {st with method := some m, flow_state := some ASK_AMOUNT})) ∧
    (st.flow_state = some ASK_METHOD → normalize_method (pstrip u) = none →
      handle_remittance_turn env u st =
        .ok (⟨"Please choose one: **bank transfer**, **cash pickup**, **mobile wallet**, **PayLah**, or **PayNow**.", false, false, [], false⟩, st)) ∧
    (st.flow_state = some ASK_GOAL → pstrip u ≠ "" →
      handle_financial_turn envB envT u st =
        .ok (⟨"What’s your **time horizon**? (e.g., 3 months, 1 year)", false, false, [], false⟩,
             {st with goal := some (pstrip u), flow_state := some ASK_HORIZ})) ∧
    (st.flow_state = some ASK_GOAL → pstrip u = "" →
      handle_financial_turn envB envT u st =
        .ok (⟨"What’s your main **goal**?", false, false, [], false⟩, st)) ∧
    (st.flow_state = some ASK_HORIZ → pstrip u ≠ "" →
      handle_financial_turn envB envT u st =
        .ok (⟨"Optional: What’s your **monthly income** in SGD? (e.g., 900) You can also reply **skip**.", false, false, [], false⟩,
             {st with horizon := some (pstrip u), flow_state := some ASK_INCOME})) ∧
    (st.flow_state = some ASK_HORIZ → pstrip u = "" →
      handle_financial_turn envB envT u st =
        .ok (⟨"Please share a rough **time horizon** (e.g., 6 months).", false, false, [], false⟩, st)) ∧
    (st.flow_state = some ASK_SCENARIO → pstrip u ≠ "" →
      handle_scam_turn env u st =
        .ok (⟨"Where did this happen? (e.g., **SMS**, **WhatsApp**, **Phone call**, **Website**, **In-person agent**)", false, false, [], false⟩,
             {st with scam_scenario := some (pstrip u), flow_state := some ASK_CHANNEL})) ∧
    (st.flow_state = some ASK_SCENARIO → pstrip u = "" →
      handle_scam_turn env u st =
        .ok (⟨"Please describe the situation (what was said/sent to you).", false, false, [], false⟩, st)) ∧
    (∀ ch, st.flow_state = some ASK_CHANNEL → normalize_channel (pstrip u) = some ch →
      handle_scam_turn env u st =
        .ok (⟨"Thanks. Did they ask for anything like **money (upfront/fees)**, **bank details**, or your **OTP/passport**? Feel free to paste exact wording. If nothing specific, you can say **not sure**.", false, false, [], false⟩,
             {st with scam_channel := some ch, flow_state := some ASK_REQUESTS})) ∧
    (st.flow_state = some ASK_CHANNEL → normalize_channel (pstrip u) = none →
      handle_scam_turn env u st =
        .ok (⟨"Please tell me the channel: **SMS**, **WhatsApp/WeChat/Telegram**, **Phone call**, **Email/Website**, or **In-person agent**.", false, false, [], false⟩, st)) ∧
    (st.flow_state = some ASK_INCOME →
      ∀ r s', handle_financial_turn envB envT u st = .ok (r, s') →
        s'.flow_state = some ASK_BANKPATH) ∧
    (st.flow_state = some ASK_AMOUNT →
      ∀ r s', handle_remittance_turn env u st = .ok (r, s') →
        s'.flow_state = some OFFER_BUDGET) ∧
    (st.flow_state = some ASK_REQUESTS →
      ∀ r s', handle_scam_turn env u st = .ok (r, s') →
        s'.flow_state = some PROVIDE_STEPS) := by
  refine ⟨?_, ?_, ?_, ?_, ?_, ?_, ?_, ?_, ?_, ?_, ?_, ?_, ?_, ?_, ?_⟩
  · intro h1 hu
    simp only [handle_remittance_turn]
    rw [h1, Option.getD_some, if_pos (show ASK_COUNTRY = ASK_COUNTRY from rfl), if_neg hu]
  · intro h1 hu
    simp only [handle_remittance_turn]
    rw [h1, Option.getD_some, if_pos (show ASK_COUNTRY = ASK_COUNTRY from rfl), if_pos hu]
  · intro m h1 hm
    simp only [handle_remittance_turn]
    rw [h1, Option.getD_some,
        if_neg (show ¬(ASK_METHOD = ASK_COUNTRY) by decide),
        if_pos (show ASK_METHOD = ASK_METHOD from rfl), hm]
  · intro h1 hm
    simp only [handle_remittance_turn]
    rw [h1, Option.getD_some,
        if_neg (show ¬(ASK_METHOD = ASK_COUNTRY) by decide),
        if_pos (show ASK_METHOD = ASK_METHOD from rfl), hm]
  · intro h1 hu
    simp only [handle_financial_turn]
    rw [h1, Option.getD_some, if_pos (show ASK_GOAL = ASK_GOAL from rfl), if_neg hu]
  · intro h1 hu
    simp only [handle_financial_turn]
    rw [h1, Option.getD_some, if_pos (show ASK_GOAL = ASK_GOAL from rfl), if_pos hu]
  · intro h1 hu
    simp only [handle_financial_turn]
    rw [h1, Option.getD_some,
        if_neg (show ¬(ASK_HORIZ = ASK_GOAL) by decide),
        if_pos (show ASK_HORIZ = ASK_HORIZ from rfl), if_neg hu]
  · intro h1 hu
    simp only [handle_financial_turn]
    rw [h1, Option.getD_some,
        if_neg (show ¬(ASK_HORIZ = ASK_GOAL) by decide),
        if_pos (show ASK_HORIZ = ASK_HORIZ from rfl), if_pos hu]
  · intro h1 hu
    simp only [handle_scam_turn]
    rw [h1, Option.getD_some, if_pos (show ASK_SCENARIO = ASK_SCENARIO from rfl), if_neg hu]
  · intro h1 hu
    simp only [handle_scam_turn]
    rw [h1, Option.getD_some, if_pos (show ASK_SCENARIO = ASK_SCENARIO from rfl), if_pos hu]
  · intro ch h1 hc
    simp only [handle_scam_turn]
    rw [h1, Option.getD_some,
        if_neg (show ¬(ASK_CHANNEL = ASK_SCENARIO) by decide),
        if_pos (show ASK_CHANNEL = ASK_CHANNEL from rfl), hc]
  · intro h1 hc
    simp only [handle_scam_turn]
    rw [h1, Option.getD_some,
        if_neg (show ¬(ASK_CHANNEL = ASK_SCENARIO) by decide),
        if_pos (show ASK_CHANNEL = ASK_CHANNEL from rfl), hc]
  · intro h1 r s' h2
    simp only [handle_financial_turn] at h2
    rw [h1, Option.getD_some,
        if_neg (show ¬(ASK_INCOME = ASK_GOAL) by decide),
        if_neg (show ¬(ASK_INCOME = ASK_HORIZ) by decide),
        if_pos (show ASK_INCOME = ASK_INCOME from rfl)] at h2
    simp only [Except.ok.injEq, Prod.mk.injEq] at h2
    rw [← h2.2]
  · intro h1 r s' h2
    simp only [handle_remittance_turn] at h2
    rw [h1, Option.getD_some,
        if_neg (show ¬(ASK_AMOUNT = ASK_COUNTRY) by decide),
        if_neg (show ¬(ASK_AMOUNT = ASK_METHOD) by decide),
        if_pos (show ASK_AMOUNT = ASK_AMOUNT from rfl)] at h2
    dsimp only at h2
    rw [if_pos (show (some SHOW_OPTIONS : Option String) = some SHOW_OPTIONS from rfl)] at h2
    split at h2
    · simp at h2
    · simp only [Except.ok.injEq, Prod.mk.injEq] at h2
      rw [← h2.2]
  · intro h1 r s' h2
    simp only [handle_scam_turn] at h2
    rw [h1, Option.getD_some,
        if_neg (show ¬(ASK_REQUESTS = ASK_SCENARIO) by decide),
        if_neg (show ¬(ASK_REQUESTS = ASK_CHANNEL) by decide),
        if_pos (show ASK_REQUESTS = ASK_REQUESTS from rfl)] at h2
    dsimp only at h2
    rw [if_pos (show (some SUMMARIZE_RISK : Option String) = some SUMMARIZE_RISK from rfl)] at h2
    split at h2
    · simp at h2
    · simp only [Except.ok.injEq, Prod.mk.injEq] at h2
      rw [← h2.2]

def c5wSt : Session := { flow := some "remittance", flow_state := some ASK_COUNTRY }

/-- Witness for the amended C5: valid country input at `ask_country`
advances to `ask_method` and stores the slot. -/
theorem c5_witness :
    handle_remittance_turn errEnv "Vietnam" c5wSt =
      .ok (⟨"Got it — **" ++ pytitle (pstrip "Vietnam") ++ "**. Do you prefer **bank transfer**, **cash pickup**, **mobile wallet**, **PayLah**, or **PayNow**?", false, false, [], false⟩,
           {c5wSt with country := some (pytitle (pstrip "Vietnam")), flow_state := some ASK_METHOD}) :=
  (c5_per_state_transitions errEnv errEnv errEnv "Vietnam" c5wSt).1 rfl (by decide)


/-- Run a list of financial-flow turns, threading the session, returning
the last turn's response and state (`none` on any transport error). -/
def finSteps (eB eT : ChatEnv) : List String → Session → Option (FlowResp × Session)
  | [], _ => none
  | [u], s => (handle_financial_turn eB eT u s).toOption
  | u :: rest, s =>
    match handle_financial_turn eB eT u s with
    | .ok (_, s2) => finSteps eB eT rest s2
    | .error _ => none

/-- A session carrying a bank-path answer collected by an earlier
financial run, with that flow finished. -/
def c6Stale : Session :=
  { flow := none, flow_state := some DONE,
    bank_path_answer := some "OLDBANK", bank_path_sources := some ["olddoc"] }

def c6Env : ChatEnv := ⟨none, .ok [], .ok "", .ok "NEWTIPS", .ok ""⟩

/-- **C6** counterexample: after `reset_financial_state`, a fresh financial
run (goal, horizon, skip income, decline the bank path) still shows the
earlier run's `bank_path_answer` in its final reply, reports
`used_rag = true` because of the stale `bank_path_sources`, and lists the
stale source — slot bleed-through across runs started by the reset. -/
theorem c6_counterexample :
    (finSteps c6Env c6Env ["save", "1 year", "skip", "no"] (reset_financial_state c6Stale).2).map
      (fun p => (pin "OLDBANK" p.1.text, p.1.used_rag, p.1.sources)) =
      some (true, true, ["olddoc"]) := by
  decide

/-- **C6** (amended): each reset function replaces the flow marker, the
state label and the started flow's own slots, and leaves every other
session field unchanged — in particular `reset_financial_state` does not
clear `bank_path_answer` / `bank_path_sources`, and a non-empty stale
`bank_path_answer` is observable: any successful `show_tips` turn stitches
it into the reply text. -/
theorem c6_reset_boundaries (s : Session) (envB envT : ChatEnv) (u : String) (a : String) :
    ((reset_remittance_state s).2 =
      {s with flow := some "remittance", flow_state := some ASK_COUNTRY,
              country := none, method := none, amount := none}) ∧
    ((reset_scam_state s).2 =
      {s with flow := some "scam", flow_state := some ASK_SCENARIO,
              scam_scenario := none, scam_channel := none, scam_requests := none}) ∧
    ((reset_financial_state s).2 =
      {s with flow := some "financial", flow_state := some ASK_GOAL,
              goal := none, horizon := none, income := none}) ∧
    ((reset_financial_state s).2.bank_path_answer = s.bank_path_answer ∧
     (reset_financial_state s).2.bank_path_sources = s.bank_path_sources) ∧
    (s.flow_state = some SHOW_TIPS → s.bank_path_answer = some a → a ≠ "" →
      ∀ r s2, handle_financial_turn envB envT u s = .ok (r, s2) →
        ("**Bank account setup (quick guide):**\n\n" ++ a ++ "\n\n").data <+: r.text.data) := by
  refine ⟨rfl, rfl, rfl, ⟨rfl, rfl⟩, ?_⟩
  intro h1 ha hne r s2 h2
  simp only [handle_financial_turn] at h2
  rw [h1, Option.getD_some,
      if_neg (show ¬(SHOW_TIPS = ASK_GOAL) by decide),
      if_neg (show ¬(SHOW_TIPS = ASK_HORIZ) by decide),
      if_neg (show ¬(SHOW_TIPS = ASK_INCOME) by decide),
      if_neg (show ¬(SHOW_TIPS = ASK_BANKPATH) by decide)] at h2
  simp only [financial_show_tips] at h2
  rw [if_pos h1] at h2
  split at h2
  · simp at h2
  · rename_i res heq
    rw [ha] at h2
    dsimp only at h2
    rw [if_pos hne] at h2
    simp only [Except.ok.injEq, Prod.mk.injEq] at h2
    rw [← h2.1]
    refine ⟨("**Simple plan:**\n\n" ++ res.answer ++ "\n\nYou can ask another question anytime.").data, ?_⟩
    simp [String.data_append, List.append_assoc]

def c6wSt : Session :=
  { flow := some "financial", flow_state := some SHOW_TIPS,
    bank_path_answer := some "OLDBANK", bank_path_sources := some ["olddoc"] }

/-- Witness for the amended C6: a concrete `show_tips` turn whose reply
starts with the stale bank-path block. -/
theorem c6_witness :
    ("**Bank account setup (quick guide):**\n\n" ++ "OLDBANK" ++ "\n\n").data <+:
      (FlowResp.mk "**Bank account setup (quick guide):**\n\nOLDBANK\n\n**Simple plan:**\n\nNEWTIPS\n\nYou can ask another question anytime." true true ["olddoc"] true).text.data :=
  (c6_reset_boundaries c6wSt c6Env c6Env "x" "OLDBANK").2.2.2.2 rfl rfl (by decide)
    (FlowResp.mk "**Bank account setup (quick guide):**\n\nOLDBANK\n\n**Simple plan:**\n\nNEWTIPS\n\nYou can ask another question anytime." true true ["olddoc"] true)
    { flow := none, flow_state := some DONE,
      bank_path_answer := some "OLDBANK", bank_path_sources := some ["olddoc"] }
    (by decide)

end Cor2221
